import Mathlib

/-!
Shallow embedding of src/settings_parser/util.py.

Python objects carry a mutable attribute dictionary; we model it as an
association list from attribute names to values, with dict semantics
(update-or-append).  Machinery that the claims need — the descriptor
protocol of cached_property, the warning-capture scope of
log_exceptions_warnings, the filesystem state touched by temp_filename,
and the logging handler / disable state touched by the two context
managers — is made explicit state passing.
-/

namespace SettingsUtil

/-- Dictionary lookup: first entry whose key matches. -/
def lookupEntry {V : Type} : List (String × V) → String → Option V
  | [], _ => none
  | (k, v) :: t, n => if k = n then some v else lookupEntry t n

/-- Dictionary update: replace the entry if the key exists, else append. -/
def setEntry {V : Type} : List (String × V) → String → V → List (String × V)
  | [], n, v => [(n, v)]
  | (k, w) :: t, n, v => if k = n then (n, v) :: t else (k, w) :: setEntry t n v

theorem lookupEntry_setEntry_same {V : Type} (l : List (String × V)) (n : String) (v : V) :
    lookupEntry (setEntry l n v) n = some v := by
  induction l with
  | nil => simp [setEntry, lookupEntry]
  | cons hd t ih =>
    obtain ⟨k, w⟩ := hd
    by_cases hk : k = n
    · simp [setEntry, lookupEntry, hk]
    · simp [setEntry, lookupEntry, hk, ih]

/-- A Python instance: just its attribute dictionary (util.py line 51's inst). -/
structure PyInstance (V : Type) where
  attrs : List (String × V)

/-- util.py lines 36-47: cached_property records the unbound method and the
name (defaulting, at construction time in Python, to the method's own name). -/
structure cached_property (V : Type) where
  method : PyInstance V → V
  name : String

/-- Result of the descriptor protocol's get: either the accessor object
itself (class access) or a computed value (instance access). -/
inductive GetResult (V : Type) where
  | accessor : cached_property V → GetResult V
  | value : V → GetResult V

/-- util.py lines 49-62, cached_property.get on an optional instance
(none models inst is None, i.e. access through the class).  Returns the
get result, the (possibly mutated) instance, and how many times the
method was invoked during this access. -/
def cached_property.get {V : Type} (cp : cached_property V) (inst : Option (PyInstance V)) :
    GetResult V × Option (PyInstance V) × Nat :=
  match inst with
  | none =>
    -- lines 54-57: instance attribute accessed on class, return self
    (GetResult.accessor cp, none, 0)
  | some i =>
    -- lines 58-62: compute, setattr under the configured name, return
    let result := cp.method i
    (GetResult.value result, some ⟨setEntry i.attrs cp.name result⟩, 1)

/-- Python attribute access inst.key where the owning class holds the
cached_property cp under the class-attribute name key.  cached_property
defines no set or delete, so it is a non-data descriptor: the instance
dictionary is consulted first and shadows it; only on a miss does
cp.get run (util.py lines 58-62).  Returns the value, the possibly
mutated instance, and the number of method invocations. -/
def accessAttr {V : Type} (key : String) (cp : cached_property V) (inst : PyInstance V) :
    V × PyInstance V × Nat :=
  match lookupEntry inst.attrs key with
  | some v => (v, inst, 0)
  | none =>
    let result := cp.method inst
    (result, ⟨setEntry inst.attrs cp.name result⟩, 1)

/-- A warning captured by warnings.catch_warnings(record=True): category
name, message text (str of the warning), source filename and line number. -/
structure Warn where
  category : String
  message : String
  filename : String
  lineno : Nat
deriving BEq, DecidableEq

/-- The observable execution of function(args, kwargs) inside the capture
scope: either a normal return carrying the return value and the warnings
emitted (in emission order; simplefilter "always" guarantees every
emission is recorded), or a raised exception carrying its type name, its
args tuple, and the warnings emitted before the raise. -/
inductive PyResult (A : Type) where
  | ok : A → List Warn → PyResult A
  | raised : String → List String → List Warn → PyResult A
deriving BEq

/-- A message received by the logging facility. -/
inductive LogEntry where
  | error : String → LogEntry
  | warning : String → LogEntry
deriving BEq, DecidableEq

/-- What the wrapper's caller observes: the return value, the re-raised
original exception (type name and args, util.py line 77), or the
wrapper's own IndexError from exc.args[0] on an empty args tuple
(util.py line 76), which carries the masked original type as context. -/
inductive WrappedOutcome (A : Type) where
  | ok : A → WrappedOutcome A
  | reraised : String → List String → WrappedOutcome A
  | indexError : String → WrappedOutcome A
deriving BEq

/-- os.path.basename: the part of the path after the last slash. -/
def basename (p : String) : String :=
  (p.splitOn "/").getLastD ""

/-- util.py lines 80-82: the composed single-line message. -/
def composeMsg (w : Warn) : String :=
  w.category ++ ": \"" ++ w.message ++ "\" in " ++ basename w.filename ++
    ", line: " ++ toString w.lineno ++ "."

/-- One entry of the process-wide warnings.filters list: action, category
name, module pattern, line number. -/
structure FilterEntry where
  action : String
  category : String
  modpattern : String
  lineno : Nat
deriving BEq, DecidableEq

/-- The entry warnings.simplefilter("always") inserts. -/
def alwaysEntry : FilterEntry :=
  ⟨"always", "Warning", "", 0⟩

/-- warnings.simplefilter("always"): remove a duplicate of the entry if
present, then insert it at the front of the filters list. -/
def simplefilter_always (fs : List FilterEntry) : List FilterEntry :=
  alwaysEntry :: fs.erase alwaysEntry

/-- Everything observable about one call through the wrapper returned by
log_exceptions_warnings: the outcome seen by the caller, the messages the
logging facility received (paired with the logger name, i.e. the wrapped
function's module), the warnings re-emitted via warnings.warn (category,
message), the filters in effect while the wrapped function ran, and the
process-wide filters after the call returns or raises. -/
structure WrapResult (A : Type) where
  outcome : WrappedOutcome A
  logged : List (String × LogEntry)
  reemitted : List (String × String)
  innerFilters : List FilterEntry
  finalFilters : List FilterEntry

/-- util.py lines 65-87.  modname is function's module (the logger name);
filters is the process-wide warnings.filters before the call; runFilters
is whatever mutation of the filters list the wrapped function itself
performs while running; run is the wrapped function's execution.

Control flow of the source: catch_warnings(record=True) saves the
filters on entry and restores them on exit, whether the body returns or
raises (lines 70-73); simplefilter("always") runs inside that scope
(line 72).  On an exception, logger.error(exc.args[0]) evaluates
exc.args[0] first — an empty args tuple raises IndexError there, so
nothing is logged and the IndexError (with the original exception as
context) propagates instead (lines 74-76); otherwise the first arg is
logged and the original is re-raised by the bare raise (line 77).  The
warning loop (lines 78-85) runs only when the function returned
normally: each captured warning is composed, logged at warning severity
and re-emitted with its original category. -/
def log_exceptions_warnings {A : Type} (modname : String) (filters : List FilterEntry)
    (runFilters : List FilterEntry → List FilterEntry) (run : PyResult A) : WrapResult A :=
  let saved := filters
  let inner := runFilters (simplefilter_always filters)
  match run with
  | PyResult.raised ty args _ws =>
    match args with
    | [] => ⟨WrappedOutcome.indexError ty, [], [], inner, saved⟩
    | a :: rest =>
      ⟨WrappedOutcome.reraised ty (a :: rest), [(modname, LogEntry.error a)], [], inner, saved⟩
  | PyResult.ok v ws =>
    ⟨WrappedOutcome.ok v,
      ws.map (fun w => (modname, LogEntry.warning (composeMsg w))),
      ws.map (fun w => (w.category, composeMsg w)),
      inner, saved⟩

/-- A filesystem: paths mapped to file contents. -/
structure FS where
  files : List (String × String)

/-- How the body of a with-block (the code at the yield point of a
contextmanager generator) exits: normally, or by raising. -/
inductive BlockExit where
  | normal : BlockExit
  | raised : BlockExit
deriving BEq, DecidableEq

def lookupFile (fs : FS) (p : String) : Option String :=
  lookupEntry fs.files p

/-- Python truthiness of the optional data argument: None and the empty
string are falsy (util.py line 27's if data:). -/
def dataTruthy : Option String → Bool
  | none => false
  | some d => !(d == "")

/-- util.py lines 26-29: NamedTemporaryFile(delete=False) creates an empty
file at a fresh path p; if data is truthy it is written; the file is
closed.  (The mode argument only selects text vs binary write and does
not change the stored content in this model.) -/
def tf_setup (fs : FS) (p : String) (data : Option String) : FS :=
  let created : FS := ⟨setEntry fs.files p ""⟩
  if dataTruthy data then ⟨setEntry created.files p (data.getD "")⟩ else created

/-- util.py line 33: os.unlink(temp.name). -/
def tf_teardown (fs : FS) (p : String) : FS :=
  ⟨fs.files.filter (fun e => !(e.1 == p))⟩

/-- util.py lines 20-33 as a whole: create the file, run the block with
the filename, and unlink in the finally clause — which runs whether the
block exited normally or raised, after which a raising block's exception
propagates unchanged. -/
def temp_filename (fs : FS) (data : Option String) (p : String)
    (block : String → FS → FS × BlockExit) : FS × BlockExit :=
  let fs1 := tf_setup fs p data
  let r := block p fs1
  (tf_teardown r.1 p, r.2)

theorem lookupEntry_filter_out {V : Type} (l : List (String × V)) (n : String) :
    lookupEntry (l.filter (fun e => !(e.1 == n))) n = none := by
  induction l with
  | nil => simp [lookupEntry]
  | cons hd t ih =>
    obtain ⟨k, v⟩ := hd
    by_cases hk : k = n
    · simp [hk, lookupEntry, ih]
    · simp [List.filter_cons, hk, lookupEntry, ih]

/-- A handler of the root logger: whether it is a StreamHandler, which
stream it writes to, and its level threshold. -/
inductive StreamKind where
  | stdout : StreamKind
  | stderr : StreamKind
  | other : StreamKind
deriving BEq, DecidableEq

structure Handler where
  isStreamHandler : Bool
  stream : StreamKind
  level : Nat
deriving BEq, DecidableEq

/-- util.py lines 95-96: isinstance(handler, StreamHandler) and
handler.stream == sys.stdout. -/
def isConsole (h : Handler) : Bool :=
  h.isStreamHandler && h.stream == StreamKind.stdout

/-- In-place handler.setLevel on the handler at position i. -/
def setLevelAt : List Handler → Nat → Nat → List Handler
  | [], _, _ => []
  | h :: t, 0, lvl => { h with level := lvl } :: t
  | h :: t, i + 1, lvl => h :: setLevelAt t i lvl

/-- The level of the handler at position i. -/
def levelAt : List Handler → Nat → Option Nat
  | [], _ => none
  | h :: _, 0 => some h.level
  | _ :: t, i + 1 => levelAt t i

/-- util.py lines 90-104.  The loop finds the first console handler; if
one exists it saves old_level, sets the new level and yields; the
restoring setLevel after the yield is NOT protected by try/finally, so
when the block raises, the generator's yield raises and the restore
never runs.  With no console handler it just yields. -/
def console_logger_level (level : Nat) (hs : List Handler)
    (block : List Handler → List Handler × BlockExit) : List Handler × BlockExit :=
  match hs.findIdx? isConsole with
  | none => block hs
  | some i =>
    let old := (levelAt hs i).getD 0
    let r := block (setLevelAt hs i level)
    match r.2 with
    | BlockExit.normal => (setLevelAt r.1 i old, BlockExit.normal)
    | BlockExit.raised => r

/-- util.py lines 107-112.  The state is the process-wide
logging.disable threshold (logging.CRITICAL = 50, logging.NOTSET = 0).
The prior threshold d0 is never saved: entry sets 50 unconditionally,
and normal exit sets 0 (NOTSET), not d0.  There is no try/finally, so a
raising block leaves the threshold wherever the block left it. -/
def no_logging (d0 : Nat) (block : Nat → Nat × BlockExit) : Nat × BlockExit :=
  let _prior := d0
  let r := block 50
  match r.2 with
  | BlockExit.normal => (0, BlockExit.normal)
  | BlockExit.raised => r

theorem levelAt_setLevelAt_same (l : List Handler) (i : Nat) (lvl : Nat) :
    levelAt (setLevelAt l i lvl) i = (levelAt l i).map (fun _ => lvl) := by
  induction l generalizing i with
  | nil => simp [setLevelAt, levelAt]
  | cons h t ih =>
    cases i with
    | zero => simp [setLevelAt, levelAt]
    | succ j => simp [setLevelAt, levelAt, ih]

/-! Claim theorems -/

/-- C1: for every computation and every instance on which the configured
attribute is not yet set, two accesses through the accessor installed
under its configured name invoke the computation exactly once: the first
access invokes it with the instance as sole argument, stores the result
as a direct instance attribute under the configured name, and returns
it; the second access returns that stored value with zero further
invocations and leaves the instance unchanged. -/
theorem cached_property_two_accesses_invoke_once {V : Type}
    (cp : cached_property V) (inst : PyInstance V) (key : String)
    (hkey : key = cp.name)
    (hfresh : lookupEntry inst.attrs key = none) :
    (accessAttr key cp inst).2.2 = 1
  ∧ (accessAttr key cp inst).1 = cp.method inst
  ∧ lookupEntry (accessAttr key cp inst).2.1.attrs cp.name = some (cp.method inst)
  ∧ (accessAttr key cp (accessAttr key cp inst).2.1).2.2 = 0
  ∧ (accessAttr key cp (accessAttr key cp inst).2.1).1 = (accessAttr key cp inst).1
  ∧ (accessAttr key cp (accessAttr key cp inst).2.1).2.1 = (accessAttr key cp inst).2.1 := by
  subst hkey
  simp [accessAttr, hfresh, lookupEntry_setEntry_same]

/-- The concrete scenario of the spec: a computation returning 42 bound
to the attribute name answer. -/
def answerProp : cached_property Nat :=
  ⟨fun _ => 42, "answer"⟩

def emptyInst : PyInstance Nat :=
  ⟨[]⟩

/-- Witness for C1 at the concrete 42-answer scenario. -/
theorem cached_property_two_accesses_witness :
    ("answer" = answerProp.name
  ∧ lookupEntry emptyInst.attrs "answer" = none)
  ∧ ((accessAttr "answer" answerProp emptyInst).2.2 = 1
  ∧ (accessAttr "answer" answerProp emptyInst).1 = answerProp.method emptyInst
  ∧ lookupEntry (accessAttr "answer" answerProp emptyInst).2.1.attrs answerProp.name
      = some (answerProp.method emptyInst)
  ∧ (accessAttr "answer" answerProp (accessAttr "answer" answerProp emptyInst).2.1).2.2 = 0
  ∧ (accessAttr "answer" answerProp (accessAttr "answer" answerProp emptyInst).2.1).1
      = (accessAttr "answer" answerProp emptyInst).1
  ∧ (accessAttr "answer" answerProp (accessAttr "answer" answerProp emptyInst).2.1).2.1
      = (accessAttr "answer" answerProp emptyInst).2.1) :=
  ⟨⟨rfl, rfl⟩, cached_property_two_accesses_invoke_once answerProp emptyInst "answer" rfl rfl⟩

/-- C7: for every computation, access through the owning type itself
(no instance) returns the accessor object itself, mutates nothing, and
invokes the computation zero times. -/
theorem cached_property_class_access_returns_self {V : Type} (cp : cached_property V) :
    cp.get none = (GetResult.accessor cp, none, 0) :=
  rfl

/-- C2: for every wrapped function that returns normally after emitting
exactly one warning, the module-scoped logger receives exactly one
warning-severity message of the composed literal form, and exactly one
warning with the same category and that composed message is re-emitted;
the return value passes through. -/
theorem log_ew_single_warning_logged_and_reemitted {A : Type}
    (modname : String) (filters : List FilterEntry)
    (runFilters : List FilterEntry → List FilterEntry) (v : A) (w : Warn) :
    (log_exceptions_warnings modname filters runFilters (PyResult.ok v [w])).logged
      = [(modname, LogEntry.warning (composeMsg w))]
  ∧ (log_exceptions_warnings modname filters runFilters (PyResult.ok v [w])).reemitted
      = [(w.category, composeMsg w)]
  ∧ (log_exceptions_warnings modname filters runFilters (PyResult.ok v [w])).outcome
      = WrappedOutcome.ok v :=
  ⟨rfl, rfl, rfl⟩

/-- C3: for every wrapped function that raises an error whose args tuple
is non-empty, the module-scoped logger receives exactly one
error-severity message equal to the first positional argument, and the
original error — same type name, same full args — is re-raised to the
caller. -/
theorem log_ew_error_logged_and_reraised {A : Type}
    (modname : String) (filters : List FilterEntry)
    (runFilters : List FilterEntry → List FilterEntry)
    (ty a : String) (rest : List String) (ws : List Warn) :
    (log_exceptions_warnings modname filters runFilters
        (PyResult.raised ty (a :: rest) ws : PyResult A)).outcome
      = WrappedOutcome.reraised ty (a :: rest)
  ∧ (log_exceptions_warnings modname filters runFilters
        (PyResult.raised ty (a :: rest) ws : PyResult A)).logged
      = [(modname, LogEntry.error a)] :=
  ⟨rfl, rfl⟩

/-- C4: for every wrapped function that raises an error with an empty
args tuple, the caller observes the wrapper-generated IndexError — an
error distinct from the original, which it masks — not a re-raise of the
original, and nothing at all is logged. -/
theorem log_ew_empty_args_masks_error {A : Type}
    (modname : String) (filters : List FilterEntry)
    (runFilters : List FilterEntry → List FilterEntry)
    (ty : String) (ws : List Warn) :
    (log_exceptions_warnings modname filters runFilters
        (PyResult.raised ty [] ws : PyResult A)).outcome
      = WrappedOutcome.indexError ty
  ∧ (∀ args : List String,
      (log_exceptions_warnings modname filters runFilters
          (PyResult.raised ty [] ws : PyResult A)).outcome
        ≠ WrappedOutcome.reraised ty args)
  ∧ (log_exceptions_warnings modname filters runFilters
        (PyResult.raised ty [] ws : PyResult A)).logged = [] := by
  refine ⟨rfl, ?_, rfl⟩
  intro args
  simp [log_exceptions_warnings]

/-- C5 counterexample: a wrapped function raises ValueError with one arg
after emitting one warning; that captured warning is neither re-emitted
to the caller nor logged at warning severity — the only logged message
is the error.  This refutes the claim that captured warnings are logged
and re-emitted even when the wrapped function raises. -/
theorem log_ew_drops_warnings_on_raise_cex :
    (log_exceptions_warnings "settings" [] id
        (PyResult.raised "ValueError" ["boom"]
          [⟨"UserWarning", "be careful", "conf.py", 3⟩] : PyResult Nat)).reemitted = []
  ∧ (log_exceptions_warnings "settings" [] id
        (PyResult.raised "ValueError" ["boom"]
          [⟨"UserWarning", "be careful", "conf.py", 3⟩] : PyResult Nat)).logged.filter
      (fun e => match e.2 with | LogEntry.warning _ => true | _ => false) = [] :=
  ⟨rfl, rfl⟩

/-- C5 amended: on a normal return every captured warning is both logged
(composed, at warning severity) and re-emitted, in emission order; but
when the wrapped function raises, the captured warnings are neither
re-emitted nor logged at warning severity — only the error path runs. -/
theorem log_ew_warnings_logged_only_on_success {A : Type}
    (modname : String) (filters : List FilterEntry)
    (runFilters : List FilterEntry → List FilterEntry) (v : A) (ws : List Warn)
    (ty : String) (args : List String) (ws2 : List Warn) :
    (log_exceptions_warnings modname filters runFilters (PyResult.ok v ws)).logged
      = ws.map (fun w => (modname, LogEntry.warning (composeMsg w)))
  ∧ (log_exceptions_warnings modname filters runFilters (PyResult.ok v ws)).reemitted
      = ws.map (fun w => (w.category, composeMsg w))
  ∧ (log_exceptions_warnings modname filters runFilters
        (PyResult.raised ty args ws2 : PyResult A)).reemitted = []
  ∧ ((log_exceptions_warnings modname filters runFilters
        (PyResult.raised ty args ws2 : PyResult A)).logged.filter
      (fun e => match e.2 with | LogEntry.warning _ => true | _ => false)) = [] := by
  refine ⟨rfl, rfl, ?_, ?_⟩ <;> cases args <;> rfl

/-- C6: for every wrapped function that returns normally with zero
warnings, the wrapped call yields exactly the same return value as the
direct call, and the logger receives no messages (nothing is re-emitted
either). -/
theorem log_ew_identity_no_warnings {A : Type}
    (modname : String) (filters : List FilterEntry)
    (runFilters : List FilterEntry → List FilterEntry) (v : A) :
    (log_exceptions_warnings modname filters runFilters (PyResult.ok v [])).outcome
      = WrappedOutcome.ok v
  ∧ (log_exceptions_warnings modname filters runFilters (PyResult.ok v [])).logged = []
  ∧ (log_exceptions_warnings modname filters runFilters (PyResult.ok v [])).reemitted = [] :=
  ⟨rfl, rfl, rfl⟩

/-- C10: for every call through the wrapper — whatever the wrapped
function returns, raises, or does to the filters list while running —
the process-wide warning filters after the call equal those before it,
and the always filter is installed only inside the capture scope (it
heads the filters the wrapped function runs under). -/
theorem log_ew_filters_restored {A : Type}
    (modname : String) (filters : List FilterEntry)
    (runFilters : List FilterEntry → List FilterEntry) (run : PyResult A) :
    (log_exceptions_warnings modname filters runFilters run).finalFilters = filters
  ∧ (log_exceptions_warnings modname filters runFilters run).innerFilters
      = runFilters (simplefilter_always filters)
  ∧ (simplefilter_always filters).head? = some alwaysEntry := by
  refine ⟨?_, ?_, rfl⟩ <;>
    cases run with
    | ok v ws => rfl
    | raised ty args ws => cases args <;> rfl

/-- C8: the temp-file helper creates, at a fresh path, a file holding the
given text (empty when the data is absent or empty), hands the path to
the block, and the finally clause deletes the file whether the block
exits normally or raises; a raising exit propagates unchanged. -/
theorem temp_filename_content_and_cleanup (fs : FS) (data : Option String) (p : String)
    (block : String → FS → FS × BlockExit) :
    lookupFile (tf_setup fs p data) p = some (data.getD "")
  ∧ lookupFile (temp_filename fs data p block).1 p = none
  ∧ (temp_filename fs data p block).2 = (block p (tf_setup fs p data)).2 := by
  refine ⟨?_, ?_, rfl⟩
  · unfold tf_setup
    cases data with
    | none => simp [dataTruthy, lookupFile, lookupEntry_setEntry_same]
    | some d =>
      by_cases hd : d = ""
      · subst hd
        simp [dataTruthy, lookupFile, lookupEntry_setEntry_same]
      · simp [dataTruthy, hd, lookupFile, lookupEntry_setEntry_same]
  · unfold temp_filename tf_teardown
    simp [lookupFile, lookupEntry_filter_out]

/-- A console handler at a given level: a StreamHandler on stdout. -/
def consoleH (lvl : Nat) : Handler :=
  ⟨true, StreamKind.stdout, lvl⟩

/-- C9 counterexample: with one console handler at level 10, overriding
to level 40 and raising out of the block leaves the handler at 40 — the
prior threshold is not restored when the block raises, refuting the
claim that restoration happens regardless of how the block exits. -/
theorem console_logger_level_no_restore_on_raise_cex :
    console_logger_level 40 [consoleH 10] (fun s => (s, BlockExit.raised))
      = ([consoleH 40], BlockExit.raised)
  ∧ ¬ (console_logger_level 40 [consoleH 10] (fun s => (s, BlockExit.raised))).1
      = [consoleH 10] := by
  refine ⟨rfl, ?_⟩
  decide

/-- C9 amended: restoration happens only when the block exits normally.
On a normal exit the console handler position gets its prior level back
(whatever the block did to the handler levels meanwhile), and no_logging
re-enables logging by setting the disable threshold to NOTSET (0) —
which is not in general the prior threshold.  When the block raises,
neither helper restores anything (see the counterexample). -/
theorem console_no_logging_restore_on_normal_exit
    (level : Nat) (hs hs2 : List Handler)
    (block : List Handler → List Handler × BlockExit)
    (i oldLvl curLvl d0 : Nat) (blk : Nat → Nat × BlockExit)
    (hi : hs.findIdx? isConsole = some i)
    (hold : levelAt hs i = some oldLvl)
    (hb : block (setLevelAt hs i level) = (hs2, BlockExit.normal))
    (hcur : levelAt hs2 i = some curLvl)
    (hblk : (blk 50).2 = BlockExit.normal) :
    console_logger_level level hs block = (setLevelAt hs2 i oldLvl, BlockExit.normal)
  ∧ levelAt (console_logger_level level hs block).1 i = some oldLvl
  ∧ no_logging d0 blk = (0, BlockExit.normal) := by
  have h1 : console_logger_level level hs block = (setLevelAt hs2 i oldLvl, BlockExit.normal) := by
    unfold console_logger_level
    rw [hi]
    simp [hold, hb]
  refine ⟨h1, ?_, ?_⟩
  · rw [h1]
    simp [levelAt_setLevelAt_same, hcur]
  · unfold no_logging
    simp [hblk]

/-- Witness for the amended C9 at a concrete run: one console handler at
level 10, override to 40, block exits normally; no_logging entered with
prior threshold 30 and a normally exiting block. -/
theorem console_no_logging_restore_witness :
    (([consoleH 10] : List Handler).findIdx? isConsole = some 0
  ∧ levelAt [consoleH 10] 0 = some 10
  ∧ (fun s => (s, BlockExit.normal)) (setLevelAt [consoleH 10] 0 40)
      = ([consoleH 40], BlockExit.normal)
  ∧ levelAt [consoleH 40] 0 = some 40
  ∧ ((fun _ => ((7, BlockExit.normal) : Nat × BlockExit)) 50).2 = BlockExit.normal)
  ∧ (console_logger_level 40 [consoleH 10] (fun s => (s, BlockExit.normal))
      = (setLevelAt [consoleH 40] 0 10, BlockExit.normal)
  ∧ levelAt (console_logger_level 40 [consoleH 10] (fun s => (s, BlockExit.normal))).1 0
      = some 10
  ∧ no_logging 30 (fun _ => ((7, BlockExit.normal) : Nat × BlockExit))
      = (0, BlockExit.normal)) :=
  ⟨⟨by decide, rfl, rfl, rfl, rfl⟩,
    console_no_logging_restore_on_normal_exit 40 [consoleH 10] [consoleH 40]
      (fun s => (s, BlockExit.normal)) 0 10 40 30
      (fun _ => ((7, BlockExit.normal) : Nat × BlockExit))
      (by decide) rfl rfl rfl rfl⟩

end SettingsUtil
